import Mathlib

/-!
Shallow embedding of the OFI_Assignment delivery-route optimization core
(src/cost_model.py, src/sustainability_model.py, src/routing_engine.py).

Numbers are modelled as exact rationals; Python round(x, 2) is modelled by
roundC (round to the nearest cent, halves up), Python round(x, 4) by round4.
Fallible Python code (ZeroDivisionError, UnboundLocalError) is modelled with
Except PyError.  String-keyed rate tables become total functions with the
same documented defaults.  Division on rationals is total (q / 0 = 0); the
checked entry points below make the Python division-by-zero failure explicit.
-/

/-- Python exceptions that the embedded code can raise. -/
inductive PyError where
  | zeroDivisionError
  | unboundLocalError
deriving DecidableEq, Repr

/-- Round a rational to 2 decimal places, models Python round(x, 2).
(Mathlib round is round-half-up; Python uses round-half-even, the two differ
only at exact decimal ties, which the theorems below avoid.) -/
def roundC (q : ℚ) : ℚ := (round (q * 100) : ℤ) / 100

/-- Round a rational to 4 decimal places, models Python round(x, 4). -/
def round4 (q : ℚ) : ℚ := (round (q * 10000) : ℤ) / 10000

/-! ## Cost model (src/cost_model.py, class CostModel) -/

/-- CostModel.FUEL_PRICE_PER_LITER. -/
def FUEL_PRICE_PER_LITER : ℚ := 102

/-- CostModel.LABOR_COST_PER_HOUR lookup with the .get default 250.0. -/
def LABOR_COST_PER_HOUR (vehicle_type : String) : ℚ :=
  if vehicle_type = "Express_Bike" then 150
  else if vehicle_type = "Small_Van" then 200
  else if vehicle_type = "Medium_Truck" then 250
  else if vehicle_type = "Large_Truck" then 300
  else if vehicle_type = "Refrigerated" then 350
  else 250

/-- CostModel.MAINTENANCE_COST_PER_KM lookup with the .get default 5.0. -/
def MAINTENANCE_COST_PER_KM (vehicle_type : String) : ℚ :=
  if vehicle_type = "Express_Bike" then 2
  else if vehicle_type = "Small_Van" then 3.5
  else if vehicle_type = "Medium_Truck" then 5
  else if vehicle_type = "Large_Truck" then 7
  else if vehicle_type = "Refrigerated" then 8
  else 5

/-- CostModel.BASE_INSURANCE_PER_TRIP. -/
def BASE_INSURANCE_PER_TRIP : ℚ := 50

/-- CostModel.BASE_PACKAGING_COST. -/
def BASE_PACKAGING_COST : ℚ := 30

/-- CostModel.PLATFORM_FEE_PERCENTAGE (3 percent of subtotal). -/
def PLATFORM_FEE_PERCENTAGE : ℚ := 3

/-- CostModel.OVERHEAD_PERCENTAGE (5 percent of subtotal). -/
def OVERHEAD_PERCENTAGE : ℚ := 5

/-- CostModel.WEATHER_COST_MULTIPLIER lookup with the .get default 1.0. -/
def WEATHER_COST_MULTIPLIER (weather_impact : String) : ℚ :=
  if weather_impact = "None" then 1
  else if weather_impact = "Light_Rain" then 1.1
  else if weather_impact = "Heavy_Rain" then 1.25
  else if weather_impact = "Fog" then 1.15
  else 1

/-- CostModel.WEIGHT_COST_FACTOR. -/
def WEIGHT_COST_FACTOR : ℚ := 0.01

/-- fuel_consumption_liters = distance_km / fuel_efficiency. -/
def fuelConsumptionExact (distance_km fuel_efficiency : ℚ) : ℚ :=
  distance_km / fuel_efficiency

/-- fuel_cost = fuel_consumption_liters * fuel_price. -/
def fuelCostExact (fuel_price distance_km fuel_efficiency : ℚ) : ℚ :=
  fuelConsumptionExact distance_km fuel_efficiency * fuel_price

/-- total_time_hours used for labor: distance at base speed 60 plus delay. -/
def laborTimeExact (distance_km traffic_delay_min : ℚ) : ℚ :=
  distance_km / 60 + traffic_delay_min / 60

/-- labor_cost = total_time_hours * hourly_rate, then weather multiplier. -/
def laborCostExact (distance_km traffic_delay_min : ℚ)
    (vehicle_type weather_impact : String) : ℚ :=
  laborTimeExact distance_km traffic_delay_min * LABOR_COST_PER_HOUR vehicle_type
    * WEATHER_COST_MULTIPLIER weather_impact

/-- maintenance_cost = distance_km * maintenance_rate. -/
def maintenanceCostExact (distance_km : ℚ) (vehicle_type : String) : ℚ :=
  distance_km * MAINTENANCE_COST_PER_KM vehicle_type

/-- toll_cost: given toll_charges when positive, else 0.80 INR per km. -/
def tollCostExact (distance_km toll_charges : ℚ) : ℚ :=
  if toll_charges > 0 then toll_charges else distance_km * 0.80

/-- packaging_cost = base + order_weight_kg * per-kg factor. -/
def packagingCostExact (order_weight_kg : ℚ) : ℚ :=
  BASE_PACKAGING_COST + order_weight_kg * WEIGHT_COST_FACTOR

/-- subtotal = sum of the six cost components (pre-rounding). -/
def subtotalExact (fuel_price distance_km : ℚ) (vehicle_type : String)
    (fuel_efficiency traffic_delay_min : ℚ) (weather_impact : String)
    (order_weight_kg toll_charges : ℚ) : ℚ :=
  fuelCostExact fuel_price distance_km fuel_efficiency
    + laborCostExact distance_km traffic_delay_min vehicle_type weather_impact
    + maintenanceCostExact distance_km vehicle_type
    + tollCostExact distance_km toll_charges
    + BASE_INSURANCE_PER_TRIP
    + packagingCostExact order_weight_kg

/-- platform_fee = subtotal * 3 / 100 (pre-rounding). -/
def platformFeeExact (fuel_price distance_km : ℚ) (vehicle_type : String)
    (fuel_efficiency traffic_delay_min : ℚ) (weather_impact : String)
    (order_weight_kg toll_charges : ℚ) : ℚ :=
  subtotalExact fuel_price distance_km vehicle_type fuel_efficiency
      traffic_delay_min weather_impact order_weight_kg toll_charges
    * (PLATFORM_FEE_PERCENTAGE / 100)

/-- overhead = subtotal * 5 / 100 (pre-rounding). -/
def overheadExact (fuel_price distance_km : ℚ) (vehicle_type : String)
    (fuel_efficiency traffic_delay_min : ℚ) (weather_impact : String)
    (order_weight_kg toll_charges : ℚ) : ℚ :=
  subtotalExact fuel_price distance_km vehicle_type fuel_efficiency
      traffic_delay_min weather_impact order_weight_kg toll_charges
    * (OVERHEAD_PERCENTAGE / 100)

/-- total_cost = subtotal + platform_fee + overhead (pre-rounding). -/
def totalCostExact (fuel_price distance_km : ℚ) (vehicle_type : String)
    (fuel_efficiency traffic_delay_min : ℚ) (weather_impact : String)
    (order_weight_kg toll_charges : ℚ) : ℚ :=
  subtotalExact fuel_price distance_km vehicle_type fuel_efficiency
      traffic_delay_min weather_impact order_weight_kg toll_charges
    + platformFeeExact fuel_price distance_km vehicle_type fuel_efficiency
        traffic_delay_min weather_impact order_weight_kg toll_charges
    + overheadExact fuel_price distance_km vehicle_type fuel_efficiency
        traffic_delay_min weather_impact order_weight_kg toll_charges

/-- The dictionary returned by CostModel.get_cost_breakdown: every field
rounded to 2 decimals. -/
structure CostBreakdown where
  fuel_cost : ℚ
  labor_cost : ℚ
  maintenance_cost : ℚ
  toll_charges : ℚ
  insurance_cost : ℚ
  packaging_cost : ℚ
  platform_fee : ℚ
  overhead : ℚ
  subtotal : ℚ
  total_cost : ℚ
deriving DecidableEq, Repr

/-- Numeric body of CostModel.get_cost_breakdown (the arithmetic after the
division distance_km / fuel_efficiency has been performed on rationals). -/
def costBreakdownCore (fuel_price distance_km : ℚ) (vehicle_type : String)
    (fuel_efficiency traffic_delay_min : ℚ) (weather_impact : String)
    (order_weight_kg toll_charges : ℚ) : CostBreakdown :=
  { fuel_cost := roundC (fuelCostExact fuel_price distance_km fuel_efficiency)
    labor_cost := roundC (laborCostExact distance_km traffic_delay_min
      vehicle_type weather_impact)
    maintenance_cost := roundC (maintenanceCostExact distance_km vehicle_type)
    toll_charges := roundC (tollCostExact distance_km toll_charges)
    insurance_cost := roundC BASE_INSURANCE_PER_TRIP
    packaging_cost := roundC (packagingCostExact order_weight_kg)
    platform_fee := roundC (platformFeeExact fuel_price distance_km
      vehicle_type fuel_efficiency traffic_delay_min weather_impact
      order_weight_kg toll_charges)
    overhead := roundC (overheadExact fuel_price distance_km vehicle_type
      fuel_efficiency traffic_delay_min weather_impact order_weight_kg
      toll_charges)
    subtotal := roundC (subtotalExact fuel_price distance_km vehicle_type
      fuel_efficiency traffic_delay_min weather_impact order_weight_kg
      toll_charges)
    total_cost := roundC (totalCostExact fuel_price distance_km vehicle_type
      fuel_efficiency traffic_delay_min weather_impact order_weight_kg
      toll_charges) }

/-- CostModel.get_cost_breakdown: in Python the first statement divides by
fuel_efficiency, so a zero fuel_efficiency raises ZeroDivisionError before
anything is returned; no other failure path exists in the function. -/
def getCostBreakdown (fuel_price distance_km : ℚ) (vehicle_type : String)
    (fuel_efficiency traffic_delay_min : ℚ) (weather_impact : String)
    (order_weight_kg toll_charges : ℚ) : Except PyError CostBreakdown :=
  if fuel_efficiency = 0 then .error .zeroDivisionError
  else .ok (costBreakdownCore fuel_price distance_km vehicle_type
    fuel_efficiency traffic_delay_min weather_impact order_weight_kg
    toll_charges)

/-- CostModel.estimate_delivery_cost: breakdown total_cost, same failure. -/
def estimateDeliveryCost (fuel_price distance_km : ℚ) (vehicle_type : String)
    (fuel_efficiency traffic_delay_min : ℚ) (weather_impact : String)
    (order_weight_kg toll_charges : ℚ) : Except PyError ℚ :=
  (getCostBreakdown fuel_price distance_km vehicle_type fuel_efficiency
    traffic_delay_min weather_impact order_weight_kg toll_charges).map
    (fun b => b.total_cost)

/-- The dictionary returned by CostModel.sensitivity_analysis. -/
structure SensitivityResult where
  baseline_cost : ℚ
  high_scenario : ℚ
  low_scenario : ℚ
  high_impact : ℚ
  low_impact : ℚ
deriving DecidableEq, Repr

/-- CostModel.sensitivity_analysis.  The Python function first computes the
baseline estimate (raising ZeroDivisionError when fuel_efficiency is 0),
assigns high_cost and low_cost only inside the parameter == fuel_price
branch (temporarily scaling self.fuel_price by 1 plus-or-minus pct/100,
modelled by passing the scaled price), and then builds the result dict that
reads high_cost and low_cost: for any other parameter value that read raises
UnboundLocalError.  In the fuel_price branch the high_impact entry divides
by the baseline, raising ZeroDivisionError when the baseline cost is 0. -/
def sensitivityAnalysis (distance_km : ℚ) (vehicle_type : String)
    (fuel_efficiency : ℚ) (parameter : String) (variation_pct : ℚ) :
    Except PyError SensitivityResult :=
  if fuel_efficiency = 0 then .error .zeroDivisionError
  else
    let baseline := (costBreakdownCore FUEL_PRICE_PER_LITER distance_km
      vehicle_type fuel_efficiency 0 "None" 0 0).total_cost
    if parameter = "fuel_price" then
      let high_cost := (costBreakdownCore
        (FUEL_PRICE_PER_LITER * (1 + variation_pct / 100)) distance_km
        vehicle_type fuel_efficiency 0 "None" 0 0).total_cost
      let low_cost := (costBreakdownCore
        (FUEL_PRICE_PER_LITER * (1 - variation_pct / 100)) distance_km
        vehicle_type fuel_efficiency 0 "None" 0 0).total_cost
      if baseline = 0 then .error .zeroDivisionError
      else .ok
        { baseline_cost := roundC baseline
          high_scenario := roundC high_cost
          low_scenario := roundC low_cost
          high_impact := roundC ((high_cost - baseline) / baseline * 100)
          low_impact := roundC ((baseline - low_cost) / baseline * 100) }
    else .error .unboundLocalError

/-! ## Sustainability model (src/sustainability_model.py) -/

/-- SustainabilityModel.CO2_PER_LITER_DIESEL. -/
def CO2_PER_LITER_DIESEL : ℚ := 2.68

/-- SustainabilityModel.calculate_co2_emissions. -/
def calculateCo2Emissions (distance_km co2_rate : ℚ) : ℚ :=
  roundC (distance_km * co2_rate)

/-- SustainabilityModel.calculate_emissions_from_fuel. -/
def calculateEmissionsFromFuel (fuel_consumption_liters : ℚ) : ℚ :=
  roundC (fuel_consumption_liters * CO2_PER_LITER_DIESEL)

/-- The dictionary returned by SustainabilityModel.get_emission_breakdown. -/
structure EmissionBreakdown where
  direct_vehicle_emissions_kg : ℚ
  fuel_based_emissions_kg : ℚ
  total_emissions_kg : ℚ
  emissions_per_km : ℚ
  fuel_consumption_liters : ℚ
deriving DecidableEq, Repr

/-- SustainabilityModel.get_emission_breakdown (rational arithmetic; the
Python divisions by fuel_efficiency and distance_km presuppose both are
nonzero, which the theorems below hypothesise). -/
def getEmissionBreakdown (distance_km co2_rate fuel_efficiency : ℚ) :
    EmissionBreakdown :=
  let direct_emissions := calculateCo2Emissions distance_km co2_rate
  let fuel_consumption := distance_km / fuel_efficiency
  let fuel_emissions := calculateEmissionsFromFuel fuel_consumption
  let total_emissions := (direct_emissions + fuel_emissions) / 2
  { direct_vehicle_emissions_kg := roundC direct_emissions
    fuel_based_emissions_kg := roundC fuel_emissions
    total_emissions_kg := roundC total_emissions
    emissions_per_km := round4 (total_emissions / distance_km)
    fuel_consumption_liters := roundC fuel_consumption }

/-! ## Data model (routes and vehicles tables as the engine reads them) -/

/-- One row of the preprocessed routes table, restricted to the columns the
routing engine reads. -/
structure Route where
  order_id : String
  route_name : String
  origin : String
  destination : String
  distance_km : ℚ
  total_time_hours : ℚ
  weather_impact : String
  traffic_delay_minutes : ℚ
deriving DecidableEq, Repr

/-- One row of the preprocessed vehicles table, restricted to the columns the
routing engine reads.  Status is the raw string from the table. -/
structure Vehicle where
  vehicle_id : String
  vehicle_type : String
  capacity_kg : ℚ
  fuel_efficiency_km_per_l : ℚ
  co2_emissions_kg_per_km : ℚ
  current_location : String
  status : String
  vehicle_quality_score : ℚ
deriving DecidableEq, Repr

/-- A route-vehicle pairing (one row of the cross join). -/
structure Combination where
  route : Route
  vehicle : Vehicle
deriving DecidableEq, Repr

/-- A combination together with the derived score columns added by
RoutingEngine._score_combinations. -/
structure ScoredCombination where
  route : Route
  vehicle : Vehicle
  time_score : ℚ
  cost_score : ℚ
  emissions_score : ℚ
  time_score_normalized : ℚ
  cost_score_normalized : ℚ
  emissions_score_normalized : ℚ
  composite_score : ℚ
deriving DecidableEq, Repr

def defaultRoute : Route :=
  { order_id := "", route_name := "", origin := "", destination := ""
    distance_km := 0, total_time_hours := 0, weather_impact := ""
    traffic_delay_minutes := 0 }

def defaultVehicle : Vehicle :=
  { vehicle_id := "", vehicle_type := "", capacity_kg := 0
    fuel_efficiency_km_per_l := 0, co2_emissions_kg_per_km := 0
    current_location := "", status := "", vehicle_quality_score := 0 }

/-- Placeholder row used only for List.headD on lists the engine has already
checked to be nonempty (mirrors the unused None defaults in the Python). -/
def defaultScored : ScoredCombination :=
  { route := defaultRoute, vehicle := defaultVehicle, time_score := 0
    cost_score := 0, emissions_score := 0, time_score_normalized := 0
    cost_score_normalized := 0, emissions_score_normalized := 0
    composite_score := 0 }

/-! ## Generic stable insertion sort (models pandas stable selection) -/

/-- Insert x into l, placing it before the first element y for which
lt y x fails; with lt a strict precedence this is the stable insertion. -/
def stableInsert (lt : α → α → Bool) (x : α) : List α → List α
  | [] => [x]
  | y :: ys => if lt y x then y :: stableInsert lt x ys else x :: y :: ys

/-- Stable insertion sort with respect to the strict precedence lt:
elements the comparison cannot separate keep their original order. -/
def stableSort (lt : α → α → Bool) : List α → List α
  | [] => []
  | x :: xs => stableInsert lt x (stableSort lt xs)

/-- Strict comparison on a rational key. -/
def ltKey (key : ScoredCombination → ℚ) (a b : ScoredCombination) : Bool :=
  decide (key a < key b)

/-- Strict lexicographic comparison on (key, original index) used to state
that ties are broken by original row order. -/
def ltLex (key : ScoredCombination → ℚ) (a b : ℕ × ScoredCombination) :
    Bool :=
  decide (key a.2 < key b.2 ∨ (key a.2 = key b.2 ∧ a.1 < b.1))

/-- pandas DataFrame.nsmallest(n, column) with the default keep equal to
first: the n rows with the smallest column value, ties broken by original
row order, returned in ascending column order. -/
def nsmallest (key : ScoredCombination → ℚ) (n : ℕ)
    (xs : List ScoredCombination) : List ScoredCombination :=
  (stableSort (ltKey key) xs).take n

/-- Specification-side sort: the enumerated rows ordered by the strict
lexicographic order on (key, original index). -/
def lexSorted (key : ScoredCombination → ℚ) (xs : List ScoredCombination) :
    List (ℕ × ScoredCombination) :=
  stableSort (ltLex key) (List.enumFrom 0 xs)

/-! ## Routing engine (src/routing_engine.py, class RoutingEngine) -/

/-- Python str.lower, mapped over the characters (the tables hold ASCII
location names, for which this matches Lean String.toLower and Python). -/
def pyLower (s : String) : String :=
  ⟨s.data.map Char.toLower⟩

/-- Case-insensitive origin and destination match of
_filter_feasible_routes. -/
def routeMatches (r : Route) (origin destination : String) : Bool :=
  pyLower r.origin == pyLower origin
    && pyLower r.destination == pyLower destination

/-- RoutingEngine._filter_feasible_routes. -/
def filterFeasibleRoutes (routes : List Route) (origin destination : String) :
    List Route :=
  routes.filter (fun r => routeMatches r origin destination)

/-- Vehicle feasibility: capacity at least the order weight and status among
Available and In_Transit (the two sequential pandas filters). -/
def vehicleFeasible (v : Vehicle) (order_weight_kg : ℚ) : Bool :=
  decide (order_weight_kg ≤ v.capacity_kg)
    && (v.status == "Available" || v.status == "In_Transit")

/-- The Location_Match flag: 1 when the vehicle is already at the origin. -/
def locationMatch (v : Vehicle) (origin : String) : ℕ :=
  if pyLower v.current_location == pyLower origin then 1 else 0

/-- Strict precedence for the vehicle ordering: descending Location_Match,
then descending Vehicle_Quality_Score (a stable lexicographic sort, as
pandas sort_values on two columns is). -/
def vehicleBefore (origin : String) (a b : Vehicle) : Bool :=
  decide (locationMatch b origin < locationMatch a origin
    ∨ (locationMatch a origin = locationMatch b origin
        ∧ b.vehicle_quality_score < a.vehicle_quality_score))

/-- Stable sort for vehicles (same generic insertion sort). -/
def stableSortVehicles (lt : Vehicle → Vehicle → Bool) :
    List Vehicle → List Vehicle := stableSort lt

/-- RoutingEngine._filter_feasible_vehicles. -/
def filterFeasibleVehicles (vehicles : List Vehicle) (origin : String)
    (order_weight_kg : ℚ) : List Vehicle :=
  stableSortVehicles (vehicleBefore origin)
    (vehicles.filter (fun v => vehicleFeasible v order_weight_kg))

/-- RoutingEngine._generate_combinations: the cross join, left-major order
as produced by the merge on a constant key. -/
def generateCombinations (routes : List Route) (vehicles : List Vehicle) :
    List Combination :=
  routes.flatMap (fun r => vehicles.map (fun v => { route := r, vehicle := v }))

/-- Time_Score: the route total time, not reweighted by priority. -/
def timeScoreOf (c : Combination) : ℚ := c.route.total_time_hours

/-- Cost_Score: estimate_delivery_cost on the pair parameters (a fresh
CostModel, so the configured fuel price; toll_charges left at default 0). -/
def costScoreOf (order_weight_kg : ℚ) (c : Combination) : ℚ :=
  (costBreakdownCore FUEL_PRICE_PER_LITER c.route.distance_km
    c.vehicle.vehicle_type c.vehicle.fuel_efficiency_km_per_l
    c.route.traffic_delay_minutes c.route.weather_impact order_weight_kg
    0).total_cost

/-- Emissions_Score: distance times the vehicle CO2 rate, rounded. -/
def emissionsScoreOf (c : Combination) : ℚ :=
  roundC (c.route.distance_km * c.vehicle.co2_emissions_kg_per_km)

/-- Minimum of a score column (pandas Series.min; 0 is junk on the empty
column, which the engine never queries). -/
def listMin : List ℚ → ℚ
  | [] => 0
  | x :: xs => xs.foldl min x

/-- Maximum of a score column. -/
def listMax : List ℚ → ℚ
  | [] => 0
  | x :: xs => xs.foldl max x

/-- Min-max normalization of one value: (v - min) / (max - min) when the
column has variance, 0.5 otherwise. -/
def normalizeVal (mn mx v : ℚ) : ℚ :=
  if mn < mx then (v - mn) / (mx - mn) else 1 / 2

/-- Min-max normalization of a whole column. -/
def normalizeColumn (xs : List ℚ) : List ℚ :=
  xs.map (normalizeVal (listMin xs) (listMax xs))

/-- RoutingEngine._score_combinations.  The priority argument is accepted
and ignored, exactly as in the source (priority is considered in
recommendations, not in scoring). -/
def scoreCombinations (combos : List Combination) (priority : String)
    (order_weight_kg : ℚ) : List ScoredCombination :=
  let times := combos.map timeScoreOf
  let costs := combos.map (costScoreOf order_weight_kg)
  let ems := combos.map emissionsScoreOf
  let tmn := listMin times
  let tmx := listMax times
  let cmn := listMin costs
  let cmx := listMax costs
  let emn := listMin ems
  let emx := listMax ems
  combos.map (fun c =>
    let tn := normalizeVal tmn tmx (timeScoreOf c)
    let cn := normalizeVal cmn cmx (costScoreOf order_weight_kg c)
    let en := normalizeVal emn emx (emissionsScoreOf c)
    { route := c.route, vehicle := c.vehicle
      time_score := timeScoreOf c
      cost_score := costScoreOf order_weight_kg c
      emissions_score := emissionsScoreOf c
      time_score_normalized := tn
      cost_score_normalized := cn
      emissions_score_normalized := en
      composite_score := tn * 0.33 + cn * 0.33 + en * 0.34 })

/-- The four ranked option lists returned by _rank_options (empty maps on
the two failure paths). -/
structure RankedOptions where
  fastest : List ScoredCombination
  cheapest : List ScoredCombination
  greenest : List ScoredCombination
  balanced : List ScoredCombination
deriving DecidableEq, Repr

def emptyRanked : RankedOptions :=
  { fastest := [], cheapest := [], greenest := [], balanced := [] }

/-- RoutingEngine._rank_options: nsmallest per objective. -/
def rankOptions (scored : List ScoredCombination) (top_n : ℕ) :
    RankedOptions :=
  { fastest := nsmallest (fun sc => sc.time_score) top_n scored
    cheapest := nsmallest (fun sc => sc.cost_score) top_n scored
    greenest := nsmallest (fun sc => sc.emissions_score) top_n scored
    balanced := nsmallest (fun sc => sc.composite_score) top_n scored }

/-- The numeric part of RoutingEngine._analyze_trade_offs (the formatted
message strings are presentation and omitted). -/
structure TradeOffs where
  time_saved_hours : ℚ
  cost_difference_inr : ℚ
  cost_saved_inr : ℚ
  co2_saved_kg : ℚ
deriving DecidableEq, Repr

/-- RoutingEngine._analyze_trade_offs on the top row of each objective. -/
def analyzeTradeOffs (ranked : RankedOptions) : TradeOffs :=
  let fastest := ranked.fastest.headD defaultScored
  let cheapest := ranked.cheapest.headD defaultScored
  let greenest := ranked.greenest.headD defaultScored
  { time_saved_hours :=
      cheapest.route.total_time_hours - fastest.route.total_time_hours
    cost_difference_inr := fastest.cost_score - cheapest.cost_score
    cost_saved_inr := greenest.cost_score - cheapest.cost_score
    co2_saved_kg := cheapest.emissions_score - greenest.emissions_score }

/-- One recommendation entry: option name and rationale.  The rationale
strings carry the fixed wording; the interpolated figures of the Python
f-strings are presentation and elided. -/
structure RecOption where
  option : String
  rationale : String
deriving DecidableEq, Repr

/-- The recommendations dictionary: a primary and at most one alternative. -/
structure Recommendations where
  primary : RecOption
  alternative : Option RecOption
deriving DecidableEq, Repr

/-- is_approximately_equal from _generate_recommendations: both zero, or
neither zero and the relative difference within tolerance. -/
def isApproximatelyEqual (val1 val2 tolerance : ℚ) : Bool :=
  if val1 = 0 ∧ val2 = 0 then true
  else if val1 = 0 ∨ val2 = 0 then false
  else decide (|val1 - val2| / max val1 val2 ≤ tolerance)

/-- Lookup of a ranked option list by objective name (ranked_options in the
source is a dict keyed by these four names; the primary option name is
always one of the four). -/
def getRankedByName (ranked : RankedOptions) (name : String) :
    List ScoredCombination :=
  if name = "fastest" then ranked.fastest
  else if name = "cheapest" then ranked.cheapest
  else if name = "greenest" then ranked.greenest
  else ranked.balanced

/-- RoutingEngine._generate_recommendations.  The trade_offs argument is
accepted and never read, as in the source. -/
def generateRecommendations (ranked : RankedOptions)
    (trade_offs : TradeOffs) (priority : String) : Recommendations :=
  let fastest := ranked.fastest.headD defaultScored
  let cheapest := ranked.cheapest.headD defaultScored
  let greenest := ranked.greenest.headD defaultScored
  let balanced := ranked.balanced.headD defaultScored
  let primary : RecOption :=
    if priority = "Express" then
      if isApproximatelyEqual fastest.route.total_time_hours
          cheapest.route.total_time_hours 0.05 then
        { option := "cheapest"
          rationale := "Cheapest option delivers in same time as fastest but saves cost" }
      else if isApproximatelyEqual fastest.route.total_time_hours
          greenest.route.total_time_hours 0.05 then
        { option := "greenest"
          rationale := "Greenest option delivers in same time as fastest but saves CO2" }
      else
        { option := "fastest", rationale := "Fastest delivery for Express priority" }
    else if priority = "Economy" then
      if isApproximatelyEqual cheapest.cost_score greenest.cost_score 0.05 then
        { option := "greenest"
          rationale := "Greenest option costs same as cheapest but saves CO2" }
      else if isApproximatelyEqual cheapest.cost_score fastest.cost_score 0.05 then
        { option := "fastest"
          rationale := "Fastest option costs same as cheapest but saves hours" }
      else
        { option := "cheapest", rationale := "Lowest cost for Economy priority" }
    else
      if isApproximatelyEqual balanced.composite_score
          cheapest.composite_score 0.03 then
        { option := "cheapest"
          rationale := "Cheapest option provides best overall balance for Standard priority" }
      else if isApproximatelyEqual balanced.composite_score
          greenest.composite_score 0.03 then
        { option := "greenest"
          rationale := "Greenest option provides best overall balance for Standard priority" }
      else
        { option := "balanced"
          rationale := "Balanced option optimally trades off time, cost, and emissions" }
  let primaryTop := (getRankedByName ranked primary.option).headD defaultScored
  let alternative : Option RecOption :=
    if primary.option ≠ "greenest" then
      if |primaryTop.emissions_score - greenest.emissions_score| > 1 then
        some { option := "greenest"
               rationale := "Consider greenest option to save CO2 for sustainability goals" }
      else none
    else if primary.option ≠ "cheapest" then
      if |primaryTop.cost_score - cheapest.cost_score| > 50 then
        some { option := "cheapest"
               rationale := "Consider cheapest option to save cost" }
      else none
    else if primary.option ≠ "fastest" then
      if |primaryTop.route.total_time_hours - fastest.route.total_time_hours|
          > 0.5 then
        some { option := "fastest"
               rationale := "Consider fastest option to save hours" }
      else none
    else none
  { primary := primary, alternative := alternative }

/-- The discriminated result of optimize_route.  The success dict has no
error key (error = none here) and the failure dicts have no combination
count (count 0 here) and empty ranked_options and trade-off maps (the empty
record and none here). -/
structure RouteResult where
  error : Option String
  message : Option String
  ranked_options : RankedOptions
  trade_off_analysis : Option TradeOffs
  recommendations : Recommendations
  total_combinations_evaluated : ℕ
deriving DecidableEq, Repr

/-- RoutingEngine._handle_no_routes. -/
def handleNoRoutes (origin destination : String) : RouteResult :=
  { error := some "NO_ROUTES_FOUND"
    message := some ("No routes available for " ++ origin ++ " to " ++ destination)
    ranked_options := emptyRanked
    trade_off_analysis := none
    recommendations :=
      { primary :=
          { option := "none"
            rationale := "Route not in current network. Consider external logistics partner." }
        alternative := none }
    total_combinations_evaluated := 0 }

/-- RoutingEngine._handle_no_vehicles. -/
def handleNoVehicles : RouteResult :=
  { error := some "NO_VEHICLES_AVAILABLE"
    message := some "No vehicles with sufficient capacity are currently available"
    ranked_options := emptyRanked
    trade_off_analysis := none
    recommendations :=
      { primary :=
          { option := "wait"
            rationale := "Wait for vehicle availability or split shipment" }
        alternative := none }
    total_combinations_evaluated := 0 }

/-- RoutingEngine.optimize_route: filter, score, rank, analyze, recommend;
with the two structured failure results on empty feasible sets. -/
def optimizeRoute (routes : List Route) (vehicles : List Vehicle)
    (origin destination : String) (order_weight_kg : ℚ) (priority : String)
    (show_top_n : ℕ) : RouteResult :=
  let feasible_routes := filterFeasibleRoutes routes origin destination
  if feasible_routes.isEmpty then handleNoRoutes origin destination
  else
    let feasible_vehicles :=
      filterFeasibleVehicles vehicles origin order_weight_kg
    if feasible_vehicles.isEmpty then handleNoVehicles
    else
      let combinations := generateCombinations feasible_routes feasible_vehicles
      let scored := scoreCombinations combinations priority order_weight_kg
      let ranked := rankOptions scored show_top_n
      let trade_offs := analyzeTradeOffs ranked
      let recommendations := generateRecommendations ranked trade_offs priority
      { error := none
        message := none
        ranked_options := ranked
        trade_off_analysis := some trade_offs
        recommendations := recommendations
        total_combinations_evaluated := scored.length }

/-! ## Specification-side predicates and concrete demonstration data -/

/-- Lexicographic order on (key, original index) with ties allowed: this is
what sortedness of the stable selection means. -/
def lexLePair (key : ScoredCombination → ℚ) (a b : ℕ × ScoredCombination) :
    Prop :=
  key a.2 < key b.2 ∨ (key a.2 = key b.2 ∧ a.1 ≤ b.1)

/-- The ranked-output specification of one objective: correct length,
ascending on the objective score, and equal to the top n of the enumerated
rows sorted by (score, original index) - i.e. ties broken by original row
order - where that sorted enumeration is itself lexicographically sorted
and a permutation of the enumerated input. -/
def rankedSpec (key : ScoredCombination → ℚ) (xs : List ScoredCombination)
    (n : ℕ) (out : List ScoredCombination) : Prop :=
  out.length = min n xs.length ∧
  out.Pairwise (fun a b => key a ≤ key b) ∧
  out = ((lexSorted key xs).take n).map Prod.snd ∧
  (lexSorted key xs).Pairwise (lexLePair key) ∧
  (lexSorted key xs).Perm (List.enumFrom 0 xs)

/-- The normalization specification for one raw score column: the
normalized column is the min-max normalization; with variance every entry
is the affine rescaling, lies in the unit interval, with the minimum row at
0 and the maximum row at 1; without variance every entry is one half. -/
def normSpec (raws norms : List ℚ) : Prop :=
  norms = normalizeColumn raws ∧
  (listMin raws < listMax raws →
    ∀ i, ∀ (h : i < norms.length) (h2 : i < raws.length),
      norms.get ⟨i, h⟩
          = (raws.get ⟨i, h2⟩ - listMin raws) / (listMax raws - listMin raws) ∧
      0 ≤ norms.get ⟨i, h⟩ ∧ norms.get ⟨i, h⟩ ≤ 1 ∧
      (raws.get ⟨i, h2⟩ = listMin raws → norms.get ⟨i, h⟩ = 0) ∧
      (raws.get ⟨i, h2⟩ = listMax raws → norms.get ⟨i, h⟩ = 1)) ∧
  (listMax raws = listMin raws → ∀ v ∈ norms, v = 1 / 2)

/-- Concrete demonstration route (for witness theorems). -/
def demoRouteMD : Route :=
  { order_id := "ORD1", route_name := "Mumbai-Delhi", origin := "Mumbai"
    destination := "Delhi", distance_km := 100, total_time_hours := 2
    weather_impact := "None", traffic_delay_minutes := 0 }

/-- Concrete demonstration vehicle, available small van at the origin. -/
def demoVan : Vehicle :=
  { vehicle_id := "V1", vehicle_type := "Small_Van", capacity_kg := 100
    fuel_efficiency_km_per_l := 10, co2_emissions_kg_per_km := 1
    current_location := "Mumbai", status := "Available"
    vehicle_quality_score := 1 }

/-- Concrete demonstration vehicle, in-transit large truck. -/
def demoTruck : Vehicle :=
  { vehicle_id := "V2", vehicle_type := "Large_Truck", capacity_kg := 200
    fuel_efficiency_km_per_l := 5, co2_emissions_kg_per_km := 2
    current_location := "Delhi", status := "In_Transit"
    vehicle_quality_score := 0 }

/-- Concrete demonstration vehicle under maintenance. -/
def demoMaintTruck : Vehicle :=
  { vehicle_id := "V3", vehicle_type := "Large_Truck", capacity_kg := 200
    fuel_efficiency_km_per_l := 5, co2_emissions_kg_per_km := 2
    current_location := "Mumbai", status := "Maintenance"
    vehicle_quality_score := 1 }

def demoRoutes : List Route := [demoRouteMD]

def demoVehicles : List Vehicle := [demoVan, demoTruck]

def demoCombos : List Combination := generateCombinations demoRoutes demoVehicles

def demoScored : List ScoredCombination :=
  scoreCombinations demoCombos "Standard" 50

/-! ## Helper lemmas: the stable insertion sort -/

theorem stableInsert_perm {α : Type} (lt : α → α → Bool) (x : α) :
    ∀ l : List α, (stableInsert lt x l).Perm (x :: l) := by
  intro l
  induction l with
  | nil => exact List.Perm.refl _
  | cons y ys ih =>
    simp only [stableInsert]
    split
    · exact (ih.cons y).trans (List.Perm.swap x y ys)
    · exact List.Perm.refl _

theorem stableSort_perm {α : Type} (lt : α → α → Bool) :
    ∀ l : List α, (stableSort lt l).Perm l := by
  intro l
  induction l with
  | nil => exact List.Perm.refl _
  | cons x xs ih =>
    exact (stableInsert_perm lt x (stableSort lt xs)).trans (ih.cons x)

theorem length_stableSort {α : Type} (lt : α → α → Bool) (l : List α) :
    (stableSort lt l).length = l.length :=
  (stableSort_perm lt l).length_eq

theorem mem_stableInsert {α : Type} (lt : α → α → Bool) (x : α) (l : List α)
    (z : α) (hz : z ∈ stableInsert lt x l) : z = x ∨ z ∈ l := by
  have := (stableInsert_perm lt x l).mem_iff.1 hz
  simpa using this

theorem mem_stableSort {α : Type} (lt : α → α → Bool) (l : List α)
    (z : α) (hz : z ∈ stableSort lt l) : z ∈ l :=
  (stableSort_perm lt l).mem_iff.1 hz

theorem stableInsert_pairwise {α : Type} (lt : α → α → Bool)
    (hasymm : ∀ a b, lt a b = true → lt b a = false)
    (htrans : ∀ a b c, lt b a = false → lt c b = false → lt c a = false)
    (x : α) :
    ∀ l : List α, l.Pairwise (fun a b => lt b a = false) →
      (stableInsert lt x l).Pairwise (fun a b => lt b a = false) := by
  intro l
  induction l with
  | nil => intro _; simp [stableInsert]
  | cons y ys ih =>
    intro h
    rcases List.pairwise_cons.1 h with ⟨hy, hys⟩
    simp only [stableInsert]
    split
    case isTrue h1 =>
      refine List.pairwise_cons.2 ⟨?_, ih hys⟩
      intro z hz
      rcases mem_stableInsert lt x ys z hz with rfl | hzys
      · exact hasymm y z h1
      · exact hy z hzys
    case isFalse h1 =>
      have h1f : lt y x = false := by
        cases hxy : lt y x with
        | false => rfl
        | true => exact absurd hxy h1
      refine List.pairwise_cons.2 ⟨?_, h⟩
      intro z hz
      rcases List.mem_cons.1 hz with rfl | hzys
      · exact h1f
      · exact htrans x y z h1f (hy z hzys)

theorem stableSort_pairwise {α : Type} (lt : α → α → Bool)
    (hasymm : ∀ a b, lt a b = true → lt b a = false)
    (htrans : ∀ a b c, lt b a = false → lt c b = false → lt c a = false) :
    ∀ l : List α, (stableSort lt l).Pairwise (fun a b => lt b a = false) := by
  intro l
  induction l with
  | nil => simp [stableSort]
  | cons x xs ih => exact stableInsert_pairwise lt hasymm htrans x _ ih

/-! ## Helper lemmas: stability via the enumerated lexicographic sort -/

theorem fst_ge_of_mem_enumFrom {α : Type} :
    ∀ (xs : List α) (j : ℕ) (p : ℕ × α), p ∈ List.enumFrom j xs → j ≤ p.1 := by
  intro xs
  induction xs with
  | nil => intro j p hp; simp [List.enumFrom] at hp
  | cons x xs ih =>
    intro j p hp
    rcases List.mem_cons.1 hp with rfl | hp2
    · exact Nat.le_refl _
    · exact Nat.le_trans (Nat.le_succ j) (ih (j + 1) p hp2)

theorem map_snd_stableInsert (key : ScoredCombination → ℚ)
    (x : ScoredCombination) (i : ℕ) :
    ∀ L : List (ℕ × ScoredCombination), (∀ p ∈ L, i < p.1) →
      (stableInsert (ltLex key) (i, x) L).map Prod.snd
        = stableInsert (ltKey key) x (L.map Prod.snd) := by
  intro L
  induction L with
  | nil => intro _; rfl
  | cons y ys ih =>
    intro h
    have hy : i < y.1 := h y (List.mem_cons_self y ys)
    have hys : ∀ p ∈ ys, i < p.1 := fun p hp => h p (List.mem_cons_of_mem y hp)
    have hcond : ltLex key y (i, x) = ltKey key y.2 x := by
      simp only [ltLex, ltKey]
      by_cases hk : key y.2 < key x
      · simp [hk]
      · have hno : ¬(key y.2 = key x ∧ y.1 < i) := by
          rintro ⟨_, hfst⟩
          omega
        simp [hk, hno]
    simp only [stableInsert, List.map_cons, hcond]
    split
    · simp only [List.map_cons, ih hys]
    · simp only [List.map_cons]

theorem map_snd_stableSort_enumFrom (key : ScoredCombination → ℚ) :
    ∀ (xs : List ScoredCombination) (i : ℕ),
      (stableSort (ltLex key) (List.enumFrom i xs)).map Prod.snd
        = stableSort (ltKey key) xs := by
  intro xs
  induction xs with
  | nil => intro _; rfl
  | cons x xs ih =>
    intro i
    have hmem : ∀ p ∈ stableSort (ltLex key) (List.enumFrom (i + 1) xs),
        i < p.1 := by
      intro p hp
      have h2 := mem_stableSort (ltLex key) _ p hp
      have h3 := fst_ge_of_mem_enumFrom xs (i + 1) p h2
      omega
    show (stableInsert (ltLex key) (i, x)
        (stableSort (ltLex key) (List.enumFrom (i + 1) xs))).map Prod.snd = _
    rw [map_snd_stableInsert key x i _ hmem, ih (i + 1)]
    rfl

/-! ## Helper lemmas: column minima and maxima -/

theorem foldl_min_le (xs : List ℚ) : ∀ a : ℚ, xs.foldl min a ≤ a ∧
    ∀ v ∈ xs, xs.foldl min a ≤ v := by
  induction xs with
  | nil => intro a; exact ⟨le_refl a, by intro v hv; simp at hv⟩
  | cons x xs ih =>
    intro a
    have h := ih (min a x)
    refine ⟨le_trans h.1 (min_le_left a x), ?_⟩
    intro v hv
    rcases List.mem_cons.1 hv with rfl | hv2
    · exact le_trans h.1 (min_le_right a v)
    · exact h.2 v hv2

theorem foldl_max_ge (xs : List ℚ) : ∀ a : ℚ, a ≤ xs.foldl max a ∧
    ∀ v ∈ xs, v ≤ xs.foldl max a := by
  induction xs with
  | nil => intro a; exact ⟨le_refl a, by intro v hv; simp at hv⟩
  | cons x xs ih =>
    intro a
    have h := ih (max a x)
    refine ⟨le_trans (le_max_left a x) h.1, ?_⟩
    intro v hv
    rcases List.mem_cons.1 hv with rfl | hv2
    · exact le_trans (le_max_right a v) h.1
    · exact h.2 v hv2

theorem listMin_le_mem (xs : List ℚ) (v : ℚ) (hv : v ∈ xs) :
    listMin xs ≤ v := by
  cases xs with
  | nil => simp at hv
  | cons x ys =>
    rcases List.mem_cons.1 hv with rfl | hv2
    · exact (foldl_min_le ys v).1
    · exact (foldl_min_le ys x).2 v hv2

theorem mem_le_listMax (xs : List ℚ) (v : ℚ) (hv : v ∈ xs) :
    v ≤ listMax xs := by
  cases xs with
  | nil => simp at hv
  | cons x ys =>
    rcases List.mem_cons.1 hv with rfl | hv2
    · exact (foldl_max_ge ys v).1
    · exact (foldl_max_ge ys x).2 v hv2

/-! ## Helper lemmas: order properties of the two comparators -/

theorem ltKey_asymm (key : ScoredCombination → ℚ) :
    ∀ a b, ltKey key a b = true → ltKey key b a = false := by
  intro a b h
  simp only [ltKey, decide_eq_true_eq] at h
  simp only [ltKey, decide_eq_false_iff_not]
  exact not_lt.2 (le_of_lt h)

theorem ltKey_neg_trans (key : ScoredCombination → ℚ) :
    ∀ a b c, ltKey key b a = false → ltKey key c b = false →
      ltKey key c a = false := by
  intro a b c h1 h2
  simp only [ltKey, decide_eq_false_iff_not, not_lt] at h1 h2 ⊢
  exact le_trans h1 h2

theorem ltLex_eq_false_iff (key : ScoredCombination → ℚ)
    (a b : ℕ × ScoredCombination) :
    ltLex key b a = false ↔ lexLePair key a b := by
  simp only [ltLex, lexLePair, decide_eq_false_iff_not]
  constructor
  · intro h
    push_neg at h
    rcases lt_or_eq_of_le h.1 with hlt | heq
    · exact Or.inl hlt
    · exact Or.inr ⟨heq, h.2 heq.symm⟩
  · rintro (hlt | ⟨heq, hle⟩)
    · push_neg
      exact ⟨le_of_lt hlt, fun h2 => absurd (h2 ▸ hlt) (lt_irrefl _)⟩
    · push_neg
      exact ⟨le_of_eq heq, fun _ => hle⟩

theorem ltLex_asymm (key : ScoredCombination → ℚ) :
    ∀ a b, ltLex key a b = true → ltLex key b a = false := by
  intro a b h
  simp only [ltLex, decide_eq_true_eq] at h
  rw [ltLex_eq_false_iff]
  rcases h with hlt | ⟨heq, hfst⟩
  · exact Or.inl hlt
  · exact Or.inr ⟨heq, Nat.le_of_lt hfst⟩

theorem ltLex_neg_trans (key : ScoredCombination → ℚ) :
    ∀ a b c, ltLex key b a = false → ltLex key c b = false →
      ltLex key c a = false := by
  intro a b c h1 h2
  rw [ltLex_eq_false_iff] at h1 h2 ⊢
  rcases h1 with hlt1 | ⟨heq1, hle1⟩
  · rcases h2 with hlt2 | ⟨heq2, _⟩
    · exact Or.inl (lt_trans hlt1 hlt2)
    · exact Or.inl (heq2 ▸ hlt1)
  · rcases h2 with hlt2 | ⟨heq2, hle2⟩
    · exact Or.inl (heq1 ▸ hlt2)
    · exact Or.inr ⟨heq1.trans heq2, Nat.le_trans hle1 hle2⟩

/-- The complete ranked-output specification holds for nsmallest. -/
theorem rankedSpec_nsmallest (key : ScoredCombination → ℚ)
    (xs : List ScoredCombination) (n : ℕ) :
    rankedSpec key xs n (nsmallest key n xs) := by
  have hbridge : stableSort (ltKey key) xs = (lexSorted key xs).map Prod.snd :=
    (map_snd_stableSort_enumFrom key xs 0).symm
  refine ⟨?_, ?_, ?_, ?_, ?_⟩
  · rw [nsmallest, List.length_take, length_stableSort]
  · have hp := stableSort_pairwise (ltKey key) (ltKey_asymm key)
      (ltKey_neg_trans key) xs
    have hp2 : (stableSort (ltKey key) xs).Pairwise
        (fun a b => key a ≤ key b) := by
      refine hp.imp ?_
      intro a b hab
      simpa only [ltKey, decide_eq_false_iff_not, not_lt] using hab
    exact hp2.take
  · rw [nsmallest, hbridge]
    exact (List.map_take Prod.snd (lexSorted key xs) n).symm
  · have hp := stableSort_pairwise (ltLex key) (ltLex_asymm key)
      (ltLex_neg_trans key) (List.enumFrom 0 xs)
    refine hp.imp ?_
    intro a b hab
    exact (ltLex_eq_false_iff key a b).1 hab
  · exact stableSort_perm (ltLex key) (List.enumFrom 0 xs)

/-! ## Helper lemmas: min-max normalization -/

/-- The normalization specification holds for normalizeColumn. -/
theorem normSpec_normalizeColumn (xs : List ℚ) :
    normSpec xs (normalizeColumn xs) := by
  refine ⟨rfl, ?_, ?_⟩
  · intro hlt i h h2
    have hget : (normalizeColumn xs).get ⟨i, h⟩
        = normalizeVal (listMin xs) (listMax xs) (xs.get ⟨i, h2⟩) := by
      simp [normalizeColumn, List.get_eq_getElem]
    have hmem : xs.get ⟨i, h2⟩ ∈ xs := List.get_mem xs i h2
    have hmn := listMin_le_mem xs _ hmem
    have hmx := mem_le_listMax xs _ hmem
    have hden : 0 < listMax xs - listMin xs := sub_pos.2 hlt
    rw [hget]
    unfold normalizeVal
    rw [if_pos hlt]
    refine ⟨rfl, ?_, ?_, ?_, ?_⟩
    · exact div_nonneg (sub_nonneg.2 hmn) (le_of_lt hden)
    · rw [div_le_one hden]
      linarith
    · intro hveq
      rw [hveq, sub_self, zero_div]
    · intro hveq
      rw [hveq]
      exact div_self (ne_of_gt hden)
  · intro heq v hv
    rcases List.mem_map.1 hv with ⟨u, _, rfl⟩
    have hnlt : ¬ listMin xs < listMax xs := by
      rw [heq]
      exact lt_irrefl _
    unfold normalizeVal
    rw [if_neg hnlt]

/-! ## Helper lemmas: the score columns of _score_combinations -/

theorem scored_map_time (combos : List Combination) (p : String) (w : ℚ) :
    (scoreCombinations combos p w).map (fun sc => sc.time_score)
      = combos.map timeScoreOf := by
  simp only [scoreCombinations, List.map_map]
  rfl

theorem scored_map_cost (combos : List Combination) (p : String) (w : ℚ) :
    (scoreCombinations combos p w).map (fun sc => sc.cost_score)
      = combos.map (costScoreOf w) := by
  simp only [scoreCombinations, List.map_map]
  rfl

theorem scored_map_em (combos : List Combination) (p : String) (w : ℚ) :
    (scoreCombinations combos p w).map (fun sc => sc.emissions_score)
      = combos.map emissionsScoreOf := by
  simp only [scoreCombinations, List.map_map]
  rfl

theorem scored_map_time_norm (combos : List Combination) (p : String) (w : ℚ) :
    (scoreCombinations combos p w).map (fun sc => sc.time_score_normalized)
      = normalizeColumn (combos.map timeScoreOf) := by
  simp only [scoreCombinations, List.map_map, normalizeColumn]
  rfl

theorem scored_map_cost_norm (combos : List Combination) (p : String) (w : ℚ) :
    (scoreCombinations combos p w).map (fun sc => sc.cost_score_normalized)
      = normalizeColumn (combos.map (costScoreOf w)) := by
  simp only [scoreCombinations, List.map_map, normalizeColumn]
  rfl

theorem scored_map_em_norm (combos : List Combination) (p : String) (w : ℚ) :
    (scoreCombinations combos p w).map (fun sc => sc.emissions_score_normalized)
      = normalizeColumn (combos.map emissionsScoreOf) := by
  simp only [scoreCombinations, List.map_map, normalizeColumn]
  rfl

/-! ## Claim C3: min-max normalization of the three score columns -/

/-- C3: for each of the three raw score columns of a scored combination
set, the normalized column is the min-max normalization: when max > min
every normalized value equals (value - min) / (max - min), lies in [0, 1],
the minimum row normalizes to 0 and the maximum row to 1; when max = min
every normalized value equals one half. -/
theorem score_normalization_spec (combos : List Combination)
    (priority : String) (order_weight_kg : ℚ) :
    normSpec
      ((scoreCombinations combos priority order_weight_kg).map
        (fun sc => sc.time_score))
      ((scoreCombinations combos priority order_weight_kg).map
        (fun sc => sc.time_score_normalized)) ∧
    normSpec
      ((scoreCombinations combos priority order_weight_kg).map
        (fun sc => sc.cost_score))
      ((scoreCombinations combos priority order_weight_kg).map
        (fun sc => sc.cost_score_normalized)) ∧
    normSpec
      ((scoreCombinations combos priority order_weight_kg).map
        (fun sc => sc.emissions_score))
      ((scoreCombinations combos priority order_weight_kg).map
        (fun sc => sc.emissions_score_normalized)) := by
  refine ⟨?_, ?_, ?_⟩
  · rw [scored_map_time, scored_map_time_norm]
    exact normSpec_normalizeColumn _
  · rw [scored_map_cost, scored_map_cost_norm]
    exact normSpec_normalizeColumn _
  · rw [scored_map_em, scored_map_em_norm]
    exact normSpec_normalizeColumn _

/-- Witness for C3: the time column of a concrete scored set satisfies the
normalization equation. -/
theorem score_normalization_spec_witness :
    (scoreCombinations demoCombos "Standard" 50).map
        (fun sc => sc.time_score_normalized)
      = normalizeColumn ((scoreCombinations demoCombos "Standard" 50).map
        (fun sc => sc.time_score)) :=
  ((score_normalization_spec demoCombos "Standard" 50).1).1

/-! ## Claim C4: the ranker -/

/-- C4: for every scored combination set and top_n at least 1, each of the
four ranked option lists has length min(top_n, size), is sorted ascending
on its objective raw score, and equals the top_n of the rows ordered by
(score, original row position) - stable selection with ties broken by
original row order. -/
theorem ranker_spec (xs : List ScoredCombination) (n : ℕ) (hn : 1 ≤ n) :
    rankedSpec (fun sc => sc.time_score) xs n (rankOptions xs n).fastest ∧
    rankedSpec (fun sc => sc.cost_score) xs n (rankOptions xs n).cheapest ∧
    rankedSpec (fun sc => sc.emissions_score) xs n
      (rankOptions xs n).greenest ∧
    rankedSpec (fun sc => sc.composite_score) xs n
      (rankOptions xs n).balanced :=
  ⟨rankedSpec_nsmallest _ xs n, rankedSpec_nsmallest _ xs n,
    rankedSpec_nsmallest _ xs n, rankedSpec_nsmallest _ xs n⟩

/-- Witness for C4: concrete instance with top_n = 2. -/
theorem ranker_spec_witness :
    1 ≤ 2 ∧
    (rankOptions demoScored 2).fastest.length = min 2 demoScored.length :=
  ⟨by decide, ((ranker_spec demoScored 2 (by decide)).1).1⟩

/-! ## Claim C2: cost-breakdown additivity -/

/-- Each rounded field is within half a cent of the exact value. -/
theorem abs_roundC_sub_le (q : ℚ) : |roundC q - q| ≤ 1 / 200 := by
  have h := abs_sub_round (q * 100)
  have h2 : roundC q - q
      = -((q * 100 - ((round (q * 100) : ℤ) : ℚ)) / 100) := by
    unfold roundC
    ring
  rw [h2, abs_neg, abs_div]
  rw [show |(100 : ℚ)| = 100 by norm_num]
  linarith

/-- Counterexample to C2 as stated: at distance 60 km, Large_Truck,
efficiency 4 km per liter, no delay, no weather, no weight, toll 0.17, the
returned rounded fields give total_cost 2516.58 while subtotal plus
platform_fee plus overhead is 2516.59 - off by one cent, so the additivity
does not hold to the penny over the returned fields. -/
theorem cost_breakdown_penny_counterexample :
    (costBreakdownCore 102 60 "Large_Truck" 4 0 "None" 0 0.17).total_cost
      = 2516.58 ∧
    (costBreakdownCore 102 60 "Large_Truck" 4 0 "None" 0 0.17).subtotal
        + (costBreakdownCore 102 60 "Large_Truck" 4 0 "None" 0 0.17).platform_fee
        + (costBreakdownCore 102 60 "Large_Truck" 4 0 "None" 0 0.17).overhead
      = 2516.59 ∧
    (2516.58 : ℚ) ≠ 2516.59 ∧ (0 : ℚ) < 60 ∧ (0 : ℚ) < 4 := by
  have hL : LABOR_COST_PER_HOUR "Large_Truck" = 300 := by
    simp [LABOR_COST_PER_HOUR]
  have hM : MAINTENANCE_COST_PER_KM "Large_Truck" = 7 := by
    simp [MAINTENANCE_COST_PER_KM]
  have hW : WEATHER_COST_MULTIPLIER "None" = 1 := by
    simp [WEATHER_COST_MULTIPLIER]
  have hsub : subtotalExact 102 60 "Large_Truck" 4 0 "None" 0 0.17
      = 2330.17 := by
    unfold subtotalExact fuelCostExact fuelConsumptionExact laborCostExact
      laborTimeExact maintenanceCostExact tollCostExact packagingCostExact
      BASE_INSURANCE_PER_TRIP BASE_PACKAGING_COST WEIGHT_COST_FACTOR
    rw [hL, hM, hW]
    norm_num
  have hpf : platformFeeExact 102 60 "Large_Truck" 4 0 "None" 0 0.17
      = 69.9051 := by
    unfold platformFeeExact PLATFORM_FEE_PERCENTAGE
    rw [hsub]
    norm_num
  have hov : overheadExact 102 60 "Large_Truck" 4 0 "None" 0 0.17
      = 116.5085 := by
    unfold overheadExact OVERHEAD_PERCENTAGE
    rw [hsub]
    norm_num
  have htc : totalCostExact 102 60 "Large_Truck" 4 0 "None" 0 0.17
      = 2516.5836 := by
    unfold totalCostExact
    rw [hsub, hpf, hov]
    norm_num
  refine ⟨?_, ?_, by norm_num, by norm_num, by norm_num⟩
  · show roundC (totalCostExact 102 60 "Large_Truck" 4 0 "None" 0 0.17)
      = 2516.58
    rw [htc]
    norm_num [roundC, round_eq]
  · show roundC (subtotalExact 102 60 "Large_Truck" 4 0 "None" 0 0.17)
        + roundC (platformFeeExact 102 60 "Large_Truck" 4 0 "None" 0 0.17)
        + roundC (overheadExact 102 60 "Large_Truck" 4 0 "None" 0 0.17)
      = 2516.59
    rw [hsub, hpf, hov]
    norm_num [roundC, round_eq]

/-- C2 amended: for every input with positive distance and efficiency the
two additivity identities hold exactly on the pre-rounding values, and on
the returned 2-decimal-rounded fields they hold up to the accumulated
rounding error: within 0.02 for the total and within 0.035 for the
subtotal (not always to the penny, as the counterexample shows). -/
theorem cost_breakdown_additivity_amended (fuel_price distance_km : ℚ)
    (vehicle_type : String) (fuel_efficiency traffic_delay_min : ℚ)
    (weather_impact : String) (order_weight_kg toll_charges : ℚ)
    (hd : 0 < distance_km) (hf : 0 < fuel_efficiency) :
    totalCostExact fuel_price distance_km vehicle_type fuel_efficiency
        traffic_delay_min weather_impact order_weight_kg toll_charges
      = subtotalExact fuel_price distance_km vehicle_type fuel_efficiency
          traffic_delay_min weather_impact order_weight_kg toll_charges
        + platformFeeExact fuel_price distance_km vehicle_type fuel_efficiency
            traffic_delay_min weather_impact order_weight_kg toll_charges
        + overheadExact fuel_price distance_km vehicle_type fuel_efficiency
            traffic_delay_min weather_impact order_weight_kg toll_charges ∧
    subtotalExact fuel_price distance_km vehicle_type fuel_efficiency
        traffic_delay_min weather_impact order_weight_kg toll_charges
      = fuelCostExact fuel_price distance_km fuel_efficiency
        + laborCostExact distance_km traffic_delay_min vehicle_type
            weather_impact
        + maintenanceCostExact distance_km vehicle_type
        + tollCostExact distance_km toll_charges
        + BASE_INSURANCE_PER_TRIP
        + packagingCostExact order_weight_kg ∧
    |(costBreakdownCore fuel_price distance_km vehicle_type fuel_efficiency
          traffic_delay_min weather_impact order_weight_kg
          toll_charges).total_cost
        - ((costBreakdownCore fuel_price distance_km vehicle_type
              fuel_efficiency traffic_delay_min weather_impact order_weight_kg
              toll_charges).subtotal
          + (costBreakdownCore fuel_price distance_km vehicle_type
              fuel_efficiency traffic_delay_min weather_impact order_weight_kg
              toll_charges).platform_fee
          + (costBreakdownCore fuel_price distance_km vehicle_type
              fuel_efficiency traffic_delay_min weather_impact order_weight_kg
              toll_charges).overhead)|
      ≤ 1 / 50 ∧
    |(costBreakdownCore fuel_price distance_km vehicle_type fuel_efficiency
          traffic_delay_min weather_impact order_weight_kg
          toll_charges).subtotal
        - ((costBreakdownCore fuel_price distance_km vehicle_type
              fuel_efficiency traffic_delay_min weather_impact order_weight_kg
              toll_charges).fuel_cost
          + (costBreakdownCore fuel_price distance_km vehicle_type
              fuel_efficiency traffic_delay_min weather_impact order_weight_kg
              toll_charges).labor_cost
          + (costBreakdownCore fuel_price distance_km vehicle_type
              fuel_efficiency traffic_delay_min weather_impact order_weight_kg
              toll_charges).maintenance_cost
          + (costBreakdownCore fuel_price distance_km vehicle_type
              fuel_efficiency traffic_delay_min weather_impact order_weight_kg
              toll_charges).toll_charges
          + (costBreakdownCore fuel_price distance_km vehicle_type
              fuel_efficiency traffic_delay_min weather_impact order_weight_kg
              toll_charges).insurance_cost
          + (costBreakdownCore fuel_price distance_km vehicle_type
              fuel_efficiency traffic_delay_min weather_impact order_weight_kg
              toll_charges).packaging_cost)|
      ≤ 7 / 200 := by
  refine ⟨rfl, rfl, ?_, ?_⟩
  · have h1 := abs_le.1 (abs_roundC_sub_le (totalCostExact fuel_price
      distance_km vehicle_type fuel_efficiency traffic_delay_min
      weather_impact order_weight_kg toll_charges))
    have h2 := abs_le.1 (abs_roundC_sub_le (subtotalExact fuel_price
      distance_km vehicle_type fuel_efficiency traffic_delay_min
      weather_impact order_weight_kg toll_charges))
    have h3 := abs_le.1 (abs_roundC_sub_le (platformFeeExact fuel_price
      distance_km vehicle_type fuel_efficiency traffic_delay_min
      weather_impact order_weight_kg toll_charges))
    have h4 := abs_le.1 (abs_roundC_sub_le (overheadExact fuel_price
      distance_km vehicle_type fuel_efficiency traffic_delay_min
      weather_impact order_weight_kg toll_charges))
    have heq : totalCostExact fuel_price distance_km vehicle_type
        fuel_efficiency traffic_delay_min weather_impact order_weight_kg
        toll_charges
      = subtotalExact fuel_price distance_km vehicle_type fuel_efficiency
          traffic_delay_min weather_impact order_weight_kg toll_charges
        + platformFeeExact fuel_price distance_km vehicle_type fuel_efficiency
            traffic_delay_min weather_impact order_weight_kg toll_charges
        + overheadExact fuel_price distance_km vehicle_type fuel_efficiency
            traffic_delay_min weather_impact order_weight_kg toll_charges :=
      rfl
    simp only [costBreakdownCore]
    rw [abs_le]
    constructor <;> linarith [h1.1, h1.2, h2.1, h2.2, h3.1, h3.2, h4.1, h4.2]
  · have h2 := abs_le.1 (abs_roundC_sub_le (subtotalExact fuel_price
      distance_km vehicle_type fuel_efficiency traffic_delay_min
      weather_impact order_weight_kg toll_charges))
    have h5 := abs_le.1 (abs_roundC_sub_le (fuelCostExact fuel_price
      distance_km fuel_efficiency))
    have h6 := abs_le.1 (abs_roundC_sub_le (laborCostExact distance_km
      traffic_delay_min vehicle_type weather_impact))
    have h7 := abs_le.1 (abs_roundC_sub_le (maintenanceCostExact distance_km
      vehicle_type))
    have h8 := abs_le.1 (abs_roundC_sub_le (tollCostExact distance_km
      toll_charges))
    have h9 := abs_le.1 (abs_roundC_sub_le BASE_INSURANCE_PER_TRIP)
    have h10 := abs_le.1 (abs_roundC_sub_le (packagingCostExact
      order_weight_kg))
    have heq : subtotalExact fuel_price distance_km vehicle_type
        fuel_efficiency traffic_delay_min weather_impact order_weight_kg
        toll_charges
      = fuelCostExact fuel_price distance_km fuel_efficiency
        + laborCostExact distance_km traffic_delay_min vehicle_type
            weather_impact
        + maintenanceCostExact distance_km vehicle_type
        + tollCostExact distance_km toll_charges
        + BASE_INSURANCE_PER_TRIP
        + packagingCostExact order_weight_kg := rfl
    simp only [costBreakdownCore]
    rw [abs_le]
    constructor <;>
      linarith [h2.1, h2.2, h5.1, h5.2, h6.1, h6.2, h7.1, h7.2, h8.1, h8.2,
        h9.1, h9.2, h10.1, h10.2]

/-- Witness for C2 amended, at the counterexample input. -/
theorem cost_breakdown_additivity_amended_witness :
    (0 : ℚ) < 60 ∧ (0 : ℚ) < 4 ∧
    |(costBreakdownCore 102 60 "Large_Truck" 4 0 "None" 0
          0.17).total_cost
        - ((costBreakdownCore 102 60 "Large_Truck" 4 0 "None" 0
              0.17).subtotal
          + (costBreakdownCore 102 60 "Large_Truck" 4 0 "None" 0
              0.17).platform_fee
          + (costBreakdownCore 102 60 "Large_Truck" 4 0 "None" 0
              0.17).overhead)|
      ≤ 1 / 50 :=
  ⟨by norm_num, by norm_num,
    (cost_breakdown_additivity_amended 102 60 "Large_Truck" 4 0 "None" 0
      0.17 (by norm_num) (by norm_num)).2.2.1⟩

/-! ## Claim C9: emission breakdown -/

/-- Rounding to cents is idempotent. -/
theorem roundC_roundC (q : ℚ) : roundC (roundC q) = roundC q := by
  unfold roundC
  rw [div_mul_cancel₀ _ (by norm_num : (100 : ℚ) ≠ 0), round_intCast]

/-- Counterexample to C9 as stated: at distance 1, co2 rate 0.02,
efficiency 100, the returned total_emissions_kg is 0.03, while the
arithmetic mean of the raw direct and fuel-based values is 0.0234 and even
the mean of the returned (rounded) fields is 0.025: the returned total is
the rounded mean of the rounded estimates, not the exact mean. -/
theorem emission_mean_counterexample :
    (getEmissionBreakdown 1 0.02 100).total_emissions_kg = 0.03 ∧
    (1 * (0.02 : ℚ) + (1 / 100) * CO2_PER_LITER_DIESEL) / 2 = 0.0234 ∧
    ((getEmissionBreakdown 1 0.02 100).direct_vehicle_emissions_kg
        + (getEmissionBreakdown 1 0.02 100).fuel_based_emissions_kg) / 2
      = 0.025 ∧
    (0.03 : ℚ) ≠ 0.0234 ∧ (0.03 : ℚ) ≠ 0.025 ∧
    (0 : ℚ) < 1 ∧ (0 : ℚ) < 100 := by
  have hdir : calculateCo2Emissions 1 0.02 = 0.02 := by
    norm_num [calculateCo2Emissions, roundC, round_eq]
  have hfu : calculateEmissionsFromFuel ((1 : ℚ) / 100) = 0.03 := by
    norm_num [calculateEmissionsFromFuel, CO2_PER_LITER_DIESEL, roundC,
      round_eq]
  refine ⟨?_, ?_, ?_, by norm_num, by norm_num, by norm_num, by norm_num⟩
  · show roundC ((calculateCo2Emissions 1 0.02
        + calculateEmissionsFromFuel ((1 : ℚ) / 100)) / 2) = 0.03
    rw [hdir, hfu]
    norm_num [roundC, round_eq]
  · norm_num [CO2_PER_LITER_DIESEL]
  · show (roundC (calculateCo2Emissions 1 0.02)
        + roundC (calculateEmissionsFromFuel ((1 : ℚ) / 100))) / 2 = 0.025
    rw [hdir, hfu]
    norm_num [roundC, round_eq]

/-- C9 amended: for positive distance and efficiency, the returned fields
are the 2-decimal roundings of the stated formulas: direct is
distance times rate, fuel-based is (distance over efficiency) times the
CO2-per-liter constant, the total is the rounded arithmetic mean of the two
already-rounded estimates (within 0.01 of the exact mean, but not equal to
it in general), emissions_per_km is the 4-decimal rounding of that mean
over distance, and fuel consumption is the rounded distance over
efficiency. -/
theorem emission_breakdown_amended (distance_km co2_rate fuel_efficiency : ℚ)
    (hd : 0 < distance_km) (hf : 0 < fuel_efficiency) :
    (getEmissionBreakdown distance_km co2_rate
        fuel_efficiency).direct_vehicle_emissions_kg
      = roundC (distance_km * co2_rate) ∧
    (getEmissionBreakdown distance_km co2_rate
        fuel_efficiency).fuel_based_emissions_kg
      = roundC ((distance_km / fuel_efficiency) * CO2_PER_LITER_DIESEL) ∧
    (getEmissionBreakdown distance_km co2_rate
        fuel_efficiency).total_emissions_kg
      = roundC ((roundC (distance_km * co2_rate)
          + roundC ((distance_km / fuel_efficiency)
              * CO2_PER_LITER_DIESEL)) / 2) ∧
    (getEmissionBreakdown distance_km co2_rate
        fuel_efficiency).emissions_per_km
      = round4 (((roundC (distance_km * co2_rate)
          + roundC ((distance_km / fuel_efficiency) * CO2_PER_LITER_DIESEL))
            / 2) / distance_km) ∧
    (getEmissionBreakdown distance_km co2_rate
        fuel_efficiency).fuel_consumption_liters
      = roundC (distance_km / fuel_efficiency) ∧
    |(getEmissionBreakdown distance_km co2_rate
          fuel_efficiency).total_emissions_kg
        - (distance_km * co2_rate
            + (distance_km / fuel_efficiency) * CO2_PER_LITER_DIESEL) / 2|
      ≤ 1 / 100 := by
  refine ⟨?_, ?_, rfl, rfl, rfl, ?_⟩
  · show roundC (calculateCo2Emissions distance_km co2_rate)
      = roundC (distance_km * co2_rate)
    unfold calculateCo2Emissions
    exact roundC_roundC _
  · show roundC (calculateEmissionsFromFuel
        (distance_km / fuel_efficiency))
      = roundC ((distance_km / fuel_efficiency) * CO2_PER_LITER_DIESEL)
    unfold calculateEmissionsFromFuel
    exact roundC_roundC _
  · show |roundC ((calculateCo2Emissions distance_km co2_rate
          + calculateEmissionsFromFuel (distance_km / fuel_efficiency)) / 2)
        - (distance_km * co2_rate
            + (distance_km / fuel_efficiency) * CO2_PER_LITER_DIESEL) / 2|
      ≤ 1 / 100
    unfold calculateCo2Emissions calculateEmissionsFromFuel
    have ha := abs_le.1 (abs_roundC_sub_le (distance_km * co2_rate))
    have hb := abs_le.1 (abs_roundC_sub_le
      ((distance_km / fuel_efficiency) * CO2_PER_LITER_DIESEL))
    have hc := abs_le.1 (abs_roundC_sub_le
      ((roundC (distance_km * co2_rate)
        + roundC ((distance_km / fuel_efficiency)
            * CO2_PER_LITER_DIESEL)) / 2))
    rw [abs_le]
    constructor <;> linarith [ha.1, ha.2, hb.1, hb.2, hc.1, hc.2]

/-- Witness for C9 amended, at distance 5, rate 0.3, efficiency 2. -/
theorem emission_breakdown_amended_witness :
    (0 : ℚ) < 5 ∧ (0 : ℚ) < 2 ∧
    (getEmissionBreakdown 5 0.3 2).fuel_consumption_liters
      = roundC ((5 : ℚ) / 2) :=
  ⟨by norm_num, by norm_num,
    (emission_breakdown_amended 5 0.3 2 (by norm_num)
      (by norm_num)).2.2.2.2.1⟩

/-! ## Claim C7: no InvalidInput guard at the estimator boundary -/

/-- C7 evaluation: the estimator has no InvalidInput classification at all.
At non-positive distances (0 and -5 shown) with positive efficiency it
returns an ordinary breakdown (total 86.40 at distance 0) instead of
failing, and at zero fuel efficiency it raises a bare ZeroDivisionError
from the first division rather than a structured InvalidInput error. -/
theorem estimator_no_invalid_input_guard_eval :
    getCostBreakdown FUEL_PRICE_PER_LITER 0 "Small_Van" 2 0 "None" 0 0
      = Except.ok (costBreakdownCore FUEL_PRICE_PER_LITER 0 "Small_Van" 2 0
          "None" 0 0) ∧
    (costBreakdownCore FUEL_PRICE_PER_LITER 0 "Small_Van" 2 0 "None" 0
        0).total_cost = 86.4 ∧
    getCostBreakdown FUEL_PRICE_PER_LITER 500 "Small_Van" 0 0 "None" 0 0
      = Except.error PyError.zeroDivisionError ∧
    getCostBreakdown FUEL_PRICE_PER_LITER (-5) "Small_Van" 2 0 "None" 0 0
      = Except.ok (costBreakdownCore FUEL_PRICE_PER_LITER (-5) "Small_Van" 2
          0 "None" 0 0) := by
  have hL : LABOR_COST_PER_HOUR "Small_Van" = 200 := by
    simp [LABOR_COST_PER_HOUR]
  have hM : MAINTENANCE_COST_PER_KM "Small_Van" = 3.5 := by
    simp [MAINTENANCE_COST_PER_KM]
  have hW : WEATHER_COST_MULTIPLIER "None" = 1 := by
    simp [WEATHER_COST_MULTIPLIER]
  have hsub : subtotalExact FUEL_PRICE_PER_LITER 0 "Small_Van" 2 0 "None" 0 0
      = 80 := by
    unfold subtotalExact fuelCostExact fuelConsumptionExact laborCostExact
      laborTimeExact maintenanceCostExact tollCostExact packagingCostExact
      BASE_INSURANCE_PER_TRIP BASE_PACKAGING_COST WEIGHT_COST_FACTOR
      FUEL_PRICE_PER_LITER
    rw [hL, hM, hW]
    norm_num
  have htc : totalCostExact FUEL_PRICE_PER_LITER 0 "Small_Van" 2 0 "None" 0 0
      = 86.4 := by
    unfold totalCostExact platformFeeExact overheadExact
      PLATFORM_FEE_PERCENTAGE OVERHEAD_PERCENTAGE
    rw [hsub]
    norm_num
  refine ⟨?_, ?_, ?_, ?_⟩
  · unfold getCostBreakdown
    rw [if_neg (by norm_num : ¬(2 : ℚ) = 0)]
  · show roundC (totalCostExact FUEL_PRICE_PER_LITER 0 "Small_Van" 2 0
        "None" 0 0) = 86.4
    rw [htc]
    norm_num [roundC, round_eq]
  · unfold getCostBreakdown
    rw [if_pos rfl]
  · unfold getCostBreakdown
    rw [if_neg (by norm_num : ¬(2 : ℚ) = 0)]

/-! ## Claim C10: sensitivity_analysis and the unbound locals -/

/-- Counterexample to C10 as stated: with fuel_efficiency 0 the call with
parameter labor_cost fails before the parameter dispatch, with the
ZeroDivisionError of the baseline estimate, not with the unbound-variable
error the claim asserts for every non-fuel_price call. -/
theorem sensitivity_unbound_counterexample :
    sensitivityAnalysis 100 "Small_Van" 0 "labor_cost" 20
      = Except.error PyError.zeroDivisionError ∧
    sensitivityAnalysis 100 "Small_Van" 0 "labor_cost" 20
      ≠ Except.error PyError.unboundLocalError ∧
    ("labor_cost" : String) ≠ "fuel_price" := by
  have h : sensitivityAnalysis 100 "Small_Van" 0 "labor_cost" 20
      = Except.error PyError.zeroDivisionError := by
    unfold sensitivityAnalysis
    rw [if_pos rfl]
  refine ⟨h, ?_, by decide⟩
  rw [h]
  intro hcontra
  exact absurd (Except.error.inj hcontra) (by decide)

/-- C10 amended: provided the baseline estimate itself does not raise
(fuel_efficiency nonzero), every call with a parameter other than
fuel_price fails with the unbound-variable error when building its result;
and with parameter fuel_price and a nonzero baseline cost the function
returns normally. -/
theorem sensitivity_unbound_amended (distance_km : ℚ) (vehicle_type : String)
    (fuel_efficiency : ℚ) (parameter : String) (variation_pct : ℚ)
    (hfe : fuel_efficiency ≠ 0) (hp : parameter ≠ "fuel_price") :
    sensitivityAnalysis distance_km vehicle_type fuel_efficiency parameter
      variation_pct = Except.error PyError.unboundLocalError ∧
    ((costBreakdownCore FUEL_PRICE_PER_LITER distance_km vehicle_type
        fuel_efficiency 0 "None" 0 0).total_cost ≠ 0 →
      ∃ res, sensitivityAnalysis distance_km vehicle_type fuel_efficiency
        "fuel_price" variation_pct = Except.ok res) := by
  constructor
  · simp [sensitivityAnalysis, hfe, hp]
  · intro hbase
    simp [sensitivityAnalysis, hfe, hbase]

/-- Witness for C10 amended. -/
theorem sensitivity_unbound_amended_witness :
    (10 : ℚ) ≠ 0 ∧ ("labor_cost" : String) ≠ "fuel_price" ∧
    sensitivityAnalysis 100 "Small_Van" 10 "labor_cost" 20
      = Except.error PyError.unboundLocalError :=
  ⟨by norm_num, by decide,
    (sensitivity_unbound_amended 100 "Small_Van" 10 "labor_cost" 20
      (by norm_num) (by decide)).1⟩

/-! ## Claim C5: no matching routes -/

/-- C5: for every call whose origin/destination match no route
(case-insensitively), the whole result is the structured no-routes failure:
the pipeline stops before scoring or ranking, with error NO_ROUTES_FOUND,
empty ranked option sets, and primary recommendation option none. -/
theorem no_routes_structured_failure (routes : List Route)
    (vehicles : List Vehicle) (origin destination : String) (w : ℚ)
    (priority : String) (n : ℕ)
    (h : ∀ r ∈ routes, routeMatches r origin destination = false) :
    optimizeRoute routes vehicles origin destination w priority n
      = handleNoRoutes origin destination ∧
    (optimizeRoute routes vehicles origin destination w priority n).error
      = some "NO_ROUTES_FOUND" ∧
    (optimizeRoute routes vehicles origin destination w priority
        n).ranked_options = emptyRanked ∧
    (optimizeRoute routes vehicles origin destination w priority
        n).recommendations.primary.option = "none" := by
  have hfr : filterFeasibleRoutes routes origin destination = [] := by
    unfold filterFeasibleRoutes
    rw [List.filter_eq_nil_iff]
    intro r hr
    simp [h r hr]
  have h1 : optimizeRoute routes vehicles origin destination w priority n
      = handleNoRoutes origin destination := by
    simp only [optimizeRoute]
    rw [hfr]
    rfl
  exact ⟨h1, by rw [h1]; rfl, by rw [h1]; rfl, by rw [h1]; rfl⟩

/-- Witness for C5 at a concrete unmatched origin/destination pair. -/
theorem no_routes_structured_failure_witness :
    routeMatches demoRouteMD "CityA" "CityB" = false ∧
    (optimizeRoute demoRoutes demoVehicles "CityA" "CityB" 10 "Standard"
        3).error = some "NO_ROUTES_FOUND" ∧
    (optimizeRoute demoRoutes demoVehicles "CityA" "CityB" 10 "Standard"
        3).recommendations.primary.option = "none" := by
  have happ := no_routes_structured_failure demoRoutes demoVehicles "CityA"
    "CityB" 10 "Standard" 3
    (by
      intro r hr
      simp only [demoRoutes, List.mem_singleton] at hr
      subst hr
      decide)
  exact ⟨by decide, happ.2.1, happ.2.2.2⟩

/-! ## Claim C6: all capable vehicles under maintenance -/

/-- Counterexample to C6 as stated: with an empty route table (so no route
matches) and a single Maintenance vehicle of ample capacity, every vehicle
with sufficient capacity is in Maintenance, yet the result is the
NO_ROUTES_FOUND failure with primary option none, not NO_VEHICLES_AVAILABLE
with option wait: the route check runs first and takes precedence. -/
theorem maintenance_only_counterexample :
    demoMaintTruck.status = "Maintenance" ∧
    (10 : ℚ) ≤ demoMaintTruck.capacity_kg ∧
    (optimizeRoute [] [demoMaintTruck] "Mumbai" "Delhi" 10 "Standard"
        3).error = some "NO_ROUTES_FOUND" ∧
    (optimizeRoute [] [demoMaintTruck] "Mumbai" "Delhi" 10 "Standard"
        3).error ≠ some "NO_VEHICLES_AVAILABLE" ∧
    (optimizeRoute [] [demoMaintTruck] "Mumbai" "Delhi" 10 "Standard"
        3).recommendations.primary.option ≠ "wait" := by
  have h1 : optimizeRoute [] [demoMaintTruck] "Mumbai" "Delhi" 10 "Standard" 3
      = handleNoRoutes "Mumbai" "Delhi" := rfl
  refine ⟨rfl, by decide, ?_, ?_, ?_⟩
  · rw [h1]
    rfl
  · rw [h1]
    decide
  · rw [h1]
    decide

/-- C6 amended: provided at least one route matches the requested
origin/destination, if every vehicle with sufficient capacity is in status
Maintenance then the result is the structured NO_VEHICLES_AVAILABLE failure
with primary recommendation option wait (and empty ranked options). -/
theorem maintenance_only_no_vehicles_amended (routes : List Route)
    (vehicles : List Vehicle) (origin destination : String) (w : ℚ)
    (priority : String) (n : ℕ)
    (hr : ∃ r ∈ routes, routeMatches r origin destination = true)
    (hv : ∀ v ∈ vehicles, w ≤ v.capacity_kg → v.status = "Maintenance") :
    optimizeRoute routes vehicles origin destination w priority n
      = handleNoVehicles ∧
    (optimizeRoute routes vehicles origin destination w priority n).error
      = some "NO_VEHICLES_AVAILABLE" ∧
    (optimizeRoute routes vehicles origin destination w priority
        n).ranked_options = emptyRanked ∧
    (optimizeRoute routes vehicles origin destination w priority
        n).recommendations.primary.option = "wait" := by
  have hfrne : (filterFeasibleRoutes routes origin destination).isEmpty
      = false := by
    rcases hr with ⟨r, hrmem, hrm⟩
    have hmem : r ∈ filterFeasibleRoutes routes origin destination :=
      List.mem_filter.2 ⟨hrmem, hrm⟩
    cases hcase : filterFeasibleRoutes routes origin destination with
    | nil =>
      rw [hcase] at hmem
      simp at hmem
    | cons a l => rfl
  have hfv : filterFeasibleVehicles vehicles origin w = [] := by
    unfold filterFeasibleVehicles stableSortVehicles
    have hfil : vehicles.filter (fun v => vehicleFeasible v w) = [] := by
      rw [List.filter_eq_nil_iff]
      intro v hvmem hfeas
      unfold vehicleFeasible at hfeas
      rw [Bool.and_eq_true, decide_eq_true_eq] at hfeas
      obtain ⟨hcap, hst⟩ := hfeas
      have hm := hv v hvmem hcap
      rw [hm] at hst
      exact absurd hst (by decide)
    rw [hfil]
    rfl
  have h1 : optimizeRoute routes vehicles origin destination w priority n
      = handleNoVehicles := by
    simp only [optimizeRoute]
    rw [hfrne, hfv]
    rfl
  exact ⟨h1, by rw [h1]; rfl, by rw [h1]; rfl, by rw [h1]; rfl⟩

/-- Witness for C6 amended: a matching route and a single high-capacity
Maintenance vehicle. -/
theorem maintenance_only_no_vehicles_amended_witness :
    routeMatches demoRouteMD "Mumbai" "Delhi" = true ∧
    demoMaintTruck.status = "Maintenance" ∧
    (optimizeRoute demoRoutes [demoMaintTruck] "Mumbai" "Delhi" 10 "Standard"
        3).error = some "NO_VEHICLES_AVAILABLE" ∧
    (optimizeRoute demoRoutes [demoMaintTruck] "Mumbai" "Delhi" 10 "Standard"
        3).recommendations.primary.option = "wait" := by
  have happ := maintenance_only_no_vehicles_amended demoRoutes
    [demoMaintTruck] "Mumbai" "Delhi" 10 "Standard" 3
    ⟨demoRouteMD, by simp [demoRoutes], by decide⟩
    (by
      intro v hvmem hcap
      rw [List.mem_singleton] at hvmem
      rw [hvmem]
      rfl)
  exact ⟨by decide, rfl, happ.2.1, happ.2.2.2⟩

/-! ## Claim C8: priority does not influence scoring or ranking -/

/-- C8: two optimize_route calls differing only in priority produce
identical scored combinations and identical ranked option sets (and the
same evaluated-combination count); in particular the time score of every
scored combination is the raw route total time, not reweighted by
priority - priority influences only the recommendation step. -/
theorem priority_noninterference (routes : List Route)
    (vehicles : List Vehicle) (origin destination : String) (w : ℚ) (n : ℕ)
    (p1 p2 : String) (combos : List Combination) :
    scoreCombinations combos p1 w = scoreCombinations combos p2 w ∧
    rankOptions (scoreCombinations combos p1 w) n
      = rankOptions (scoreCombinations combos p2 w) n ∧
    (optimizeRoute routes vehicles origin destination w p1 n).ranked_options
      = (optimizeRoute routes vehicles origin destination w p2
          n).ranked_options ∧
    (optimizeRoute routes vehicles origin destination w p1
        n).total_combinations_evaluated
      = (optimizeRoute routes vehicles origin destination w p2
          n).total_combinations_evaluated ∧
    ∀ sc ∈ scoreCombinations combos p1 w,
      sc.time_score = sc.route.total_time_hours := by
  refine ⟨rfl, rfl, ?_, ?_, ?_⟩
  · by_cases h1 : (filterFeasibleRoutes routes origin destination).isEmpty
      = true
    · simp only [optimizeRoute]
      rw [h1]
      rfl
    · rw [Bool.not_eq_true] at h1
      by_cases h2 : (filterFeasibleVehicles vehicles origin w).isEmpty = true
      · simp only [optimizeRoute]
        rw [h1, h2]
        rfl
      · rw [Bool.not_eq_true] at h2
        simp only [optimizeRoute]
        rw [h1, h2]
        rfl
  · by_cases h1 : (filterFeasibleRoutes routes origin destination).isEmpty
      = true
    · simp only [optimizeRoute]
      rw [h1]
      rfl
    · rw [Bool.not_eq_true] at h1
      by_cases h2 : (filterFeasibleVehicles vehicles origin w).isEmpty = true
      · simp only [optimizeRoute]
        rw [h1, h2]
        rfl
      · rw [Bool.not_eq_true] at h2
        simp only [optimizeRoute]
        rw [h1, h2]
        rfl
  · intro sc hsc
    simp only [scoreCombinations] at hsc
    rcases List.mem_map.1 hsc with ⟨c, _, rfl⟩
    rfl

/-- Witness for C8 at concrete tables and priorities. -/
theorem priority_noninterference_witness :
    scoreCombinations demoCombos "Express" 50
      = scoreCombinations demoCombos "Economy" 50 ∧
    (optimizeRoute demoRoutes demoVehicles "Mumbai" "Delhi" 50 "Express"
        3).ranked_options
      = (optimizeRoute demoRoutes demoVehicles "Mumbai" "Delhi" 50 "Economy"
          3).ranked_options :=
  ⟨(priority_noninterference demoRoutes demoVehicles "Mumbai" "Delhi" 50 3
      "Express" "Economy" demoCombos).1,
    (priority_noninterference demoRoutes demoVehicles "Mumbai" "Delhi" 50 3
      "Express" "Economy" demoCombos).2.2.1⟩

/-! ## Claim C1: Express tie-break prefers cheapest -/

theorem length_scoreCombinations (combos : List Combination) (p : String)
    (w : ℚ) : (scoreCombinations combos p w).length = combos.length := by
  simp only [scoreCombinations, List.length_map]

theorem route_mem_generateCombinations (rs : List Route) (vs : List Vehicle)
    (c : Combination) (hc : c ∈ generateCombinations rs vs) : c.route ∈ rs := by
  unfold generateCombinations at hc
  rcases List.mem_flatMap.1 hc with ⟨r, hr, hcr⟩
  rcases List.mem_map.1 hcr with ⟨v, _, rfl⟩
  exact hr

/-- The head of a nonempty nsmallest selection is one of the input rows. -/
theorem headD_nsmallest_mem (key : ScoredCombination → ℚ) (n : ℕ)
    (xs : List ScoredCombination) (d : ScoredCombination) (hxs : xs ≠ [])
    (hn : 1 ≤ n) : (nsmallest key n xs).headD d ∈ xs := by
  have hlen : (nsmallest key n xs).length = min n xs.length := by
    rw [nsmallest, List.length_take, length_stableSort]
  have hpos : 0 < (nsmallest key n xs).length := by
    rw [hlen]
    have := List.length_pos.2 hxs
    omega
  cases hcase : nsmallest key n xs with
  | nil =>
    rw [hcase] at hpos
    simp at hpos
  | cons a l =>
    have hmem : a ∈ nsmallest key n xs := by
      rw [hcase]
      exact List.mem_cons_self a l
    rw [nsmallest] at hmem
    have h2 : a ∈ stableSort (ltKey key) xs :=
      List.Sublist.subset (List.take_sublist n _) hmem
    have h3 := mem_stableSort (ltKey key) xs a h2
    rw [List.headD_cons]
    exact h3

/-- C1: for every optimize_route call with priority Express that produces a
result (error is none), if the top cheapest combination ties the top
fastest combination on time within the 5 percent relative tolerance (both
zero, or neither zero and the relative difference at most 0.05), the
primary recommendation option is cheapest, not fastest. -/
theorem express_prefers_cheapest_on_time_tie (routes : List Route)
    (vehicles : List Vehicle) (origin destination : String) (w : ℚ) (n : ℕ)
    (hok : (optimizeRoute routes vehicles origin destination w "Express"
      n).error = none)
    (htie : isApproximatelyEqual
      (((optimizeRoute routes vehicles origin destination w "Express"
          n).ranked_options.fastest.headD
          defaultScored).route.total_time_hours)
      (((optimizeRoute routes vehicles origin destination w "Express"
          n).ranked_options.cheapest.headD
          defaultScored).route.total_time_hours)
      0.05 = true) :
    (optimizeRoute routes vehicles origin destination w "Express"
      n).recommendations.primary.option = "cheapest" := by
  by_cases h1 : (filterFeasibleRoutes routes origin destination).isEmpty
      = true
  · exfalso
    have h1e : optimizeRoute routes vehicles origin destination w "Express" n
        = handleNoRoutes origin destination := by
      simp only [optimizeRoute]
      rw [h1]
      rfl
    rw [h1e] at hok
    simp [handleNoRoutes] at hok
  · rw [Bool.not_eq_true] at h1
    by_cases h2 : (filterFeasibleVehicles vehicles origin w).isEmpty = true
    · exfalso
      have h2e : optimizeRoute routes vehicles origin destination w "Express"
          n = handleNoVehicles := by
        simp only [optimizeRoute]
        rw [h1, h2]
        rfl
      rw [h2e] at hok
      simp [handleNoVehicles] at hok
    · rw [Bool.not_eq_true] at h2
      have hns : ¬(false = true) := by simp
      simp only [optimizeRoute] at htie ⊢
      rw [h1, h2] at htie ⊢
      rw [if_neg hns, if_neg hns] at htie ⊢
      dsimp only at htie ⊢
      simp only [List.headD_eq_head?_getD] at htie
      simp [generateRecommendations, htie]

/-- Witness for C1: one route (so all combination times tie at 2 hours) and
two feasible vehicles; the Express recommendation is cheapest. -/
theorem express_prefers_cheapest_on_time_tie_witness :
    (optimizeRoute demoRoutes demoVehicles "Mumbai" "Delhi" 50 "Express"
      3).error = none ∧
    isApproximatelyEqual
      (((optimizeRoute demoRoutes demoVehicles "Mumbai" "Delhi" 50 "Express"
          3).ranked_options.fastest.headD
          defaultScored).route.total_time_hours)
      (((optimizeRoute demoRoutes demoVehicles "Mumbai" "Delhi" 50 "Express"
          3).ranked_options.cheapest.headD
          defaultScored).route.total_time_hours)
      0.05 = true ∧
    (optimizeRoute demoRoutes demoVehicles "Mumbai" "Delhi" 50 "Express"
      3).recommendations.primary.option = "cheapest" := by
  have hfr : filterFeasibleRoutes demoRoutes "Mumbai" "Delhi"
      = [demoRouteMD] := by rfl
  have hfv : filterFeasibleVehicles demoVehicles "Mumbai" 50
      = [demoVan, demoTruck] := by rfl
  have hok : (optimizeRoute demoRoutes demoVehicles "Mumbai" "Delhi" 50
      "Express" 3).error = none := by
    simp only [optimizeRoute]
    rw [hfr, hfv]
    rfl
  have htime : ∀ sc ∈ scoreCombinations
      (generateCombinations [demoRouteMD] [demoVan, demoTruck]) "Express" 50,
      sc.route.total_time_hours = 2 := by
    intro sc hsc
    simp only [scoreCombinations] at hsc
    rcases List.mem_map.1 hsc with ⟨c, hc, rfl⟩
    have hr := route_mem_generateCombinations _ _ _ hc
    rw [List.mem_singleton] at hr
    show c.route.total_time_hours = 2
    rw [hr]
    rfl
  have hsne : scoreCombinations
      (generateCombinations [demoRouteMD] [demoVan, demoTruck]) "Express" 50
      ≠ [] := by
    intro h0
    have h2 := congrArg List.length h0
    rw [length_scoreCombinations] at h2
    rw [show (generateCombinations [demoRouteMD]
      [demoVan, demoTruck]).length = 2 from rfl] at h2
    simp at h2
  have hf2 : ((rankOptions (scoreCombinations
      (generateCombinations [demoRouteMD] [demoVan, demoTruck]) "Express" 50)
      3).fastest.headD defaultScored).route.total_time_hours = 2 :=
    htime _ (headD_nsmallest_mem (fun sc => sc.time_score) 3 _ defaultScored
      hsne (by omega))
  have hc2 : ((rankOptions (scoreCombinations
      (generateCombinations [demoRouteMD] [demoVan, demoTruck]) "Express" 50)
      3).cheapest.headD defaultScored).route.total_time_hours = 2 :=
    htime _ (headD_nsmallest_mem (fun sc => sc.cost_score) 3 _ defaultScored
      hsne (by omega))
  have hro : (optimizeRoute demoRoutes demoVehicles "Mumbai" "Delhi" 50
      "Express" 3).ranked_options = rankOptions (scoreCombinations
      (generateCombinations [demoRouteMD] [demoVan, demoTruck]) "Express" 50)
      3 := by
    simp only [optimizeRoute]
    rw [hfr, hfv]
    rfl
  have htie : isApproximatelyEqual
      (((optimizeRoute demoRoutes demoVehicles "Mumbai" "Delhi" 50 "Express"
          3).ranked_options.fastest.headD
          defaultScored).route.total_time_hours)
      (((optimizeRoute demoRoutes demoVehicles "Mumbai" "Delhi" 50 "Express"
          3).ranked_options.cheapest.headD
          defaultScored).route.total_time_hours)
      0.05 = true := by
    rw [hro, hf2, hc2]
    unfold isApproximatelyEqual
    rw [if_neg (by simp : ¬((2 : ℚ) = 0 ∧ (2 : ℚ) = 0)),
      if_neg (by simp : ¬((2 : ℚ) = 0 ∨ (2 : ℚ) = 0)),
      decide_eq_true_eq]
    norm_num
  exact ⟨hok, htie, express_prefers_cheapest_on_time_tie demoRoutes
    demoVehicles "Mumbai" "Delhi" 50 3 hok htie⟩
